import Mathlib

/-!
The C++ binding `sd::event` over the sd-event loop.

Shallow embedding of `src/systemd++/sd-event.h` and
`src/libsystemd++/sd-event/sd-event.cpp`.

Conventions of the embedding

* `int`, `clockid_t` are `Int`; `uint32_t`, `uint64_t` are `Nat`; a C pointer is
  `Option` of an address, `none` being `nullptr`.
* A C++ function that may `throw error(r)` returns `Except error α`.
* The functions of the wrapped C library (`sd_event_*`) are not part of the
  binding; every binding function takes the library function it calls as an
  argument, so a theorem about the binding holds for every behaviour of the
  library.  A library call with an out-parameter returns an `OutCall`: the
  status together with the value written through the pointer, if any.
-/

namespace sd

/-- Modelled from the spec: the binding's error type of `systemd++/sd-error.h`,
which is not among the sources.  `error(r)` is `error.mk r` and `e.code` reads
the stored status back. -/
structure error where
  code : Int
deriving DecidableEq, Repr

/-- Address of a loop object of the library (`sd_event*` is `Option Loop`). -/
abbrev Loop := Nat

/-- Address of a source object of the library (`sd_event_source*` is `Option Source`). -/
abbrev Source := Nat

/-- Address of any other object (`void*` is `Option Addr`). -/
abbrev Addr := Nat

/-- What a library call with one out-parameter did: the returned status and the
value stored through the out-pointer (`none` when the call stored nothing). -/
structure OutCall (α : Type) where
  status : Int
  written : Option α
deriving DecidableEq, Repr

/-- The value of `ENODATA` in `<errno.h>` on Linux. -/
def ENODATA : Int := 61

/-- Conversion of an `int` to `uint64_t`. -/
def to_uint64 (r : Int) : Nat := (r % 2 ^ 64).toNat

/-- The handle class `sd::event`: its only field is the loop pointer. -/
structure event where
  _event : Option Loop
deriving DecidableEq, Repr

namespace event

/-- `void event::prepare()` -/
def prepare (sd_event_prepare : Option Loop → Int) (self : event) : Except error Unit :=
  let r := sd_event_prepare self._event
  if r < 0 then throw (error.mk r)
  else pure ()

/-- `void event::wait(uint64_t usec)` -/
def wait (sd_event_wait : Option Loop → Nat → Int) (self : event) (usec : Nat) :
    Except error Unit :=
  let r := sd_event_wait self._event usec
  if r < 0 then throw (error.mk r)
  else pure ()

/-- `void event::dispatch()` -/
def dispatch (sd_event_dispatch : Option Loop → Int) (self : event) : Except error Unit :=
  let r := sd_event_dispatch self._event
  if r < 0 then throw (error.mk r)
  else pure ()

/-- `void event::run(uint64_t usec)` -/
def run (sd_event_run : Option Loop → Nat → Int) (self : event) (usec : Nat) :
    Except error Unit :=
  let r := sd_event_run self._event usec
  if r < 0 then throw (error.mk r)
  else pure ()

/-- `void event::loop()` -/
def loop (sd_event_loop : Option Loop → Int) (self : event) : Except error Unit :=
  let r := sd_event_loop self._event
  if r < 0 then throw (error.mk r)
  else pure ()

/-- `void event::exit(int code)` -/
def exit (sd_event_exit : Option Loop → Int → Int) (self : event) (code : Int) :
    Except error Unit :=
  let r := sd_event_exit self._event code
  if r < 0 then throw (error.mk r)
  else pure ()

/-- `uint64_t event::get_iteration()`: the local `iteration` receives what the
library stores and is not used afterwards; the function returns `r`. -/
def get_iteration (sd_event_get_iteration : Option Loop → OutCall Nat) (self : event) :
    Except error Nat :=
  let q := sd_event_get_iteration self._event
  let r := q.status
  let _iteration := q.written
  if r < 0 then throw (error.mk r)
  else pure (to_uint64 r)

end event

/-! ## The handle operations of `sd::event` over an explicit reference count -/

/-- Model of the loop objects of the library: the reference count `n_ref` of
each loop and whether the loop has been torn down (`freed`), together with the
`sd::event` objects of the program.  Slot `i` of `handles` is the handle object
with identity `i`; it is `none` once that object has been destroyed. -/
structure Heap where
  n_ref : Loop → Nat
  freed : Loop → Bool
  handles : List (Option event)

namespace Heap

/-- The live handle object with identity `i`, if there is one. -/
def obj (h : Heap) (i : Nat) : Option event := (h.handles.get? i).join

/-- Store `v` into the handle object with identity `i`. -/
def write (h : Heap) (i : Nat) (v : event) : Heap :=
  { h with handles := h.handles.set i (some v) }

/-- A new handle object holding `v`; its identity is the next free slot. -/
def alloc (h : Heap) (v : event) : Heap :=
  { h with handles := h.handles ++ [some v] }

/-- End of the lifetime of the handle object with identity `i`. -/
def dealloc (h : Heap) (i : Nat) : Heap :=
  { h with handles := h.handles.set i none }

/-- Number of live handles whose `_event` is the loop `l`. -/
def handlesOn (h : Heap) (l : Loop) : Nat :=
  h.handles.count (some (event.mk (some l)))

end Heap

/-- Library function `sd_event_ref`: no effect on `NULL`, otherwise one more
reference. -/
def sd_event_ref (h : Heap) (e : Option Loop) : Heap :=
  match e with
  | none => h
  | some l => { h with n_ref := fun x => if x = l then h.n_ref l + 1 else h.n_ref x }

/-- Library function `sd_event_unref`: no effect on `NULL`, otherwise one
reference less, and the loop is torn down when none is left.  It always
returns `NULL`. -/
def sd_event_unref (h : Heap) (e : Option Loop) : Option Loop × Heap :=
  match e with
  | none => (none, h)
  | some l =>
    let n := h.n_ref l - 1
    (none,
      { h with
        n_ref := fun x => if x = l then n else h.n_ref x
        freed := fun x => if x = l then (h.freed l || decide (n = 0)) else h.freed x })

namespace event

/-- `event::event(sd_event* event)` building a new handle object. -/
def ctor_raw (p : Option Loop) (h : Heap) : Option Heap :=
  let self : event := { _event := p }
  let h := h.alloc self
  some (sd_event_ref h self._event)

/-- `event::event(const event& other)` building a new handle object. -/
def ctor_copy (other : Nat) (h : Heap) : Option Heap := do
  let o ← h.obj other
  let self : event := { _event := o._event }
  let h := h.alloc self
  pure (sd_event_ref h self._event)

/-- `event::event(event&& other)` building a new handle object:
`_event(std::exchange(other._event, nullptr))`. -/
def ctor_move (other : Nat) (h : Heap) : Option Heap := do
  let o ← h.obj other
  let old := o._event
  let h := h.write other { _event := none }
  let self : event := { _event := old }
  pure (h.alloc self)

/-- `event::~event()` on the handle object `this`, whose lifetime then ends. -/
def dtor (this : Nat) (h : Heap) : Option Heap := do
  let self ← h.obj this
  let (p, h) := sd_event_unref h self._event
  let h := h.write this { _event := p }
  pure (h.dealloc this)

/-- `event& event::operator=(const event& other)`; `this` and `other` are the
identities of the two operands, which may be the same object.  The body has
no `return` statement; the embedding gives its effect on the handles. -/
def assign_copy (this other : Nat) (h : Heap) : Option Heap := do
  let self ← h.obj this
  let h := (sd_event_unref h self._event).2
  let o ← h.obj other
  let h := h.write this { _event := o._event }
  let self ← h.obj this
  pure (sd_event_ref h self._event)

/-- `event& event::operator=(event&& other)`; `this` and `other` are the
identities of the two operands, which may be the same object.  The body has
no `return` statement; the embedding gives its effect on the handles. -/
def assign_move (this other : Nat) (h : Heap) : Option Heap := do
  let self ← h.obj this
  let h := (sd_event_unref h self._event).2
  let o ← h.obj other
  let old := o._event
  let h := h.write other { _event := none }
  pure (h.write this { _event := old })

end event

/-- One handle operation of a program. -/
inductive HandleOp where
  | ctor_raw (p : Option Loop)
  | ctor_copy (other : Nat)
  | ctor_move (other : Nat)
  | assign_copy (this other : Nat)
  | assign_move (this other : Nat)
  | dtor (this : Nat)
deriving DecidableEq, Repr

/-- Effect of one handle operation; `none` when an operand is not a live
handle object. -/
def HandleOp.step : HandleOp → Heap → Option Heap
  | .ctor_raw p, h => event.ctor_raw p h
  | .ctor_copy o, h => event.ctor_copy o h
  | .ctor_move o, h => event.ctor_move o h
  | .assign_copy t o, h => event.assign_copy t o h
  | .assign_move t o, h => event.assign_move t o h
  | .dtor t, h => event.dtor t h

/-- Effect of a sequence of handle operations. -/
def runOps : List HandleOp → Heap → Option Heap
  | [], h => some h
  | op :: ops, h => (op.step h).bind (runOps ops)

/-- The state before the program has created any handle. -/
def Heap.init : Heap := { n_ref := fun _ => 0, freed := fun _ => false, handles := [] }

/-- The reference-count invariant: the count of every loop is the number of
live handles on it, and a loop that was torn down has no live handle. -/
def Heap.Counted (h : Heap) : Prop :=
  ∀ l, h.n_ref l = h.handlesOn l ∧ (h.freed l = true → h.handlesOn l = 0)

/-- An operation that assigns a handle to itself. -/
def HandleOp.selfAssign : HandleOp → Bool
  | .assign_copy t o => decide (t = o)
  | .assign_move t o => decide (t = o)
  | _ => false

/-- An operation that wraps a pointer to a loop that was already torn down. -/
def HandleOp.dangling (h : Heap) : HandleOp → Bool
  | .ctor_raw (some l) => h.freed l
  | _ => false

/-- A program that never assigns a handle to itself and never wraps a pointer
to a loop already torn down. -/
def WellUsed : List HandleOp → Heap → Prop
  | [], _ => True
  | op :: ops, h =>
    op.selfAssign = false ∧ op.dangling h = false ∧
      ∀ h1, op.step h = some h1 → WellUsed ops h1

/-! ## Event sources -/

namespace event_source

/-- What a C++ callback may throw: the binding's `error` (or a class derived
from it), or an exception of any other type, named by `what`. -/
inductive Thrown where
  | sd_error (e : error)
  | other (what : String)
deriving DecidableEq, Repr

/-- The type `Callback = std::function<void(Args...)>`: a callback acts on the
state `W` of the program and either returns or throws. -/
abbrev Callback (Args W : Type) := Args → W → Except Thrown Unit × W

namespace _handler

/-- `static int call(sd_event_source* _es, Args... args, void* userdata)`.
`deref` reads the memory of the program: `deref userdata` is the object that
`(Callback*) userdata` points to. -/
def call {Args W : Type} (deref : Addr → Callback Args W) (_es : Option Source)
    (args : Args) (userdata : Addr) (w : W) : Except Thrown Int × W :=
  match (deref userdata) args w with
  | (Except.ok _, w1) => (Except.ok 0, w1)
  | (Except.error (Thrown.sd_error e), w1) => (Except.ok e.code, w1)
  | (Except.error (Thrown.other x), w1) => (Except.error (Thrown.other x), w1)

end _handler

/-- A callback instrumented to record each invocation: the state carries the
list of argument tuples the callback has been invoked with. -/
def logged {Args W : Type} (cb : Callback Args W) : Callback Args (List Args × W) :=
  fun args s => ((cb args s.2).1, (s.1 ++ [args], (cb args s.2).2))

/-- The class `_base`: its only field is the source pointer. -/
structure _base where
  _event_source : Option Source
deriving DecidableEq, Repr

/-- `_base::_base()` -/
def _base.ctor : _base := { _event_source := none }

/-- The class `_wrapper<initFn>`: the base subobject and the member `cb`.  The
member lives at the address `cb_addr` for the whole life of the object (the
copy and move operations of `_base` are deleted). -/
structure _wrapper (Args W : Type) extends _base where
  cb_addr : Addr
  cb : Callback Args W

/-- How a constructor ended: with the finished object, or with an exception
leaving the constructor, in which case `unwound` is the base subobject as
`~_base()` left it during unwinding. -/
inductive Constructed (α : Type) where
  | done (obj : α)
  | threw (e : error) (unwound : _base)

end event_source

/-- `event::event()`; `sd_event_default` is what the library call did.  On the
failure path `_event = sd_event_unref(_event)` leaves the field `NULL`; no
object exists after the `throw`. -/
def event.ctor_default (sd_event_default : OutCall Loop) : Except error event :=
  let self : event := { _event := none }
  let r := sd_event_default.status
  let self : event := { _event := (sd_event_default.written.map some).getD self._event }
  if r < 0 then
    let _self : event := { _event := none }
    throw (error.mk r)
  else pure self

namespace event_source

/-- The fields of a source object of the library that the public operations
of the source wrappers reach. -/
structure sd_event_source where
  event : Option Loop
  userdata : Addr
  description : Option String
  prepare : Option Addr
  pending : Bool
  priority : Int
  enabled : Int
  io_fd : Int
  io_events : Nat
  time_usec : Nat
  time_accuracy : Nat
  n_ref : Nat
deriving DecidableEq, Repr

/-- A source object as a registration leaves it: owned by `event`, with the
userdata passed to the registration function, no description, no prepare
callback, normal priority, enabled, and one reference, held by the wrapper. -/
def sd_event_source.registered (event : Option Loop) (userdata : Addr) : sd_event_source :=
  { event := event, userdata := userdata, description := none, prepare := none,
    pending := false, priority := 0, enabled := 1,
    io_fd := 0, io_events := 0, time_usec := 0, time_accuracy := 0, n_ref := 1 }

/-- The source objects of the library, by address. -/
abbrev Sources := Source → sd_event_source

/-- Replace the source object at address `s`. -/
def Sources.set (lib : Sources) (s : Source) (v : sd_event_source) : Sources :=
  fun x => if x = s then v else lib x

/-- Library function `sd_event_source_unref`: no effect on `NULL`, otherwise
one reference less on the source.  It always returns `NULL`. -/
def sd_event_source_unref (s : Option Source) (lib : Sources) : Option Source × Sources :=
  match s with
  | none => (none, lib)
  | some a => (none, lib.set a { lib a with n_ref := (lib a).n_ref - 1 })

/-- Library function `sd_event_source_get_event`. -/
def sd_event_source_get_event (s : Option Source) (lib : Sources) : Option Loop :=
  match s with
  | none => none
  | some a => (lib a).event

/-- Library function `sd_event_source_get_userdata`. -/
def sd_event_source_get_userdata (s : Option Source) (lib : Sources) : Addr :=
  match s with
  | none => 0
  | some a => (lib a).userdata

/-- Library function `sd_event_source_set_userdata`: stores the new pointer and
returns the previous one. -/
def sd_event_source_set_userdata (s : Option Source) (userdata : Addr) (lib : Sources) :
    Addr × Sources :=
  match s with
  | none => (0, lib)
  | some a => ((lib a).userdata, lib.set a { lib a with userdata := userdata })

/-- Library function `sd_event_source_set_description`; `r` is the status the
library answers with, and the field is stored when `r` is not negative. -/
def sd_event_source_set_description (s : Option Source) (d : String) (r : Int)
    (lib : Sources) : Int × Sources :=
  match s with
  | none => (r, lib)
  | some a => if r < 0 then (r, lib) else (r, lib.set a { lib a with description := some d })

/-- Library function `sd_event_source_set_prepare`, with its status `r`. -/
def sd_event_source_set_prepare (s : Option Source) (callback : Option Addr) (r : Int)
    (lib : Sources) : Int × Sources :=
  match s with
  | none => (r, lib)
  | some a => if r < 0 then (r, lib) else (r, lib.set a { lib a with prepare := callback })

/-- Library function `sd_event_source_set_priority`, with its status `r`. -/
def sd_event_source_set_priority (s : Option Source) (priority : Int) (r : Int)
    (lib : Sources) : Int × Sources :=
  match s with
  | none => (r, lib)
  | some a => if r < 0 then (r, lib) else (r, lib.set a { lib a with priority := priority })

/-- Library function `sd_event_source_set_enabled`, with its status `r`. -/
def sd_event_source_set_enabled (s : Option Source) (enabled : Int) (r : Int)
    (lib : Sources) : Int × Sources :=
  match s with
  | none => (r, lib)
  | some a => if r < 0 then (r, lib) else (r, lib.set a { lib a with enabled := enabled })

/-- Library function `sd_event_source_set_io_fd`, with its status `r`. -/
def sd_event_source_set_io_fd (s : Option Source) (fd : Int) (r : Int)
    (lib : Sources) : Int × Sources :=
  match s with
  | none => (r, lib)
  | some a => if r < 0 then (r, lib) else (r, lib.set a { lib a with io_fd := fd })

/-- Library function `sd_event_source_set_io_events`, with its status `r`. -/
def sd_event_source_set_io_events (s : Option Source) (events : Nat) (r : Int)
    (lib : Sources) : Int × Sources :=
  match s with
  | none => (r, lib)
  | some a => if r < 0 then (r, lib) else (r, lib.set a { lib a with io_events := events })

/-- Library function `sd_event_source_set_time`, with its status `r`. -/
def sd_event_source_set_time (s : Option Source) (usec : Nat) (r : Int)
    (lib : Sources) : Int × Sources :=
  match s with
  | none => (r, lib)
  | some a => if r < 0 then (r, lib) else (r, lib.set a { lib a with time_usec := usec })

/-- Library function `sd_event_source_set_time_accuracy`, with its status `r`. -/
def sd_event_source_set_time_accuracy (s : Option Source) (usec : Nat) (r : Int)
    (lib : Sources) : Int × Sources :=
  match s with
  | none => (r, lib)
  | some a => if r < 0 then (r, lib) else (r, lib.set a { lib a with time_accuracy := usec })

namespace _base

/-- `_base::~_base()`: `_event_source = sd_event_source_unref(_event_source)`. -/
def dtor (self : _base) (lib : Sources) : _base × Sources :=
  let (p, lib) := sd_event_source_unref self._event_source lib
  ({ _event_source := p }, lib)

/-- `event _base::get_event()`: the returned pointer converts to a handle. -/
def get_event (self : _base) (lib : Sources) : event :=
  { _event := sd_event_source_get_event self._event_source lib }

/-- `void* _base::get_userdata()` -/
def get_userdata (self : _base) (lib : Sources) : Addr :=
  sd_event_source_get_userdata self._event_source lib

/-- `void* _base::set_userdata(void *userdata)` -/
def set_userdata (self : _base) (userdata : Addr) (lib : Sources) : Addr × Sources :=
  sd_event_source_set_userdata self._event_source userdata lib

/-- `void _base::set_description(const std::string& description)` -/
def set_description (self : _base) (description : String) (status : Int) (lib : Sources) :
    Except error Unit × Sources :=
  let (r, lib) := sd_event_source_set_description self._event_source description status lib
  if r < 0 then (throw (error.mk r), lib) else (pure (), lib)

/-- `void _base::set_prepare(sd_event_handler_t callback)` -/
def set_prepare (self : _base) (callback : Option Addr) (status : Int) (lib : Sources) :
    Except error Unit × Sources :=
  let (r, lib) := sd_event_source_set_prepare self._event_source callback status lib
  if r < 0 then (throw (error.mk r), lib) else (pure (), lib)

/-- `void _base::set_priority(int64_t priority)` -/
def set_priority (self : _base) (priority : Int) (status : Int) (lib : Sources) :
    Except error Unit × Sources :=
  let (r, lib) := sd_event_source_set_priority self._event_source priority status lib
  if r < 0 then (throw (error.mk r), lib) else (pure (), lib)

/-- `void _base::set_enabled(int enabled)` -/
def set_enabled (self : _base) (enabled : Int) (status : Int) (lib : Sources) :
    Except error Unit × Sources :=
  let (r, lib) := sd_event_source_set_enabled self._event_source enabled status lib
  if r < 0 then (throw (error.mk r), lib) else (pure (), lib)

end _base

/-- `_wrapper(Callback _cb, InitArgs... initArgs)`, the constructor that every
source kind runs.  `this_cb` is the address of the member `cb` of the object
under construction; `initFn` is the registration function of the kind, given
the loop, the registration parameters and the userdata (the trampoline `call`
is the same argument in every registration and is left out), acting on the
source objects of the library and answering with its status and the source
pointer it stored through `&_event_source`.  An exception leaving the
constructor destroys the base subobject, which is already built.  The local
handle `e` is released when the body is left, which touches only the
reference count of the loop. -/
def _wrapper.ctor {Args W InitArgs : Type} (sd_event_default : OutCall Loop)
    (initFn : Option Loop → InitArgs → Addr → Sources → OutCall Source × Sources)
    (this_cb : Addr) (_cb : Callback Args W) (initArgs : InitArgs) (lib : Sources) :
    Constructed (_wrapper Args W) × Sources :=
  let base := _base.ctor
  let cb := _cb
  match event.ctor_default sd_event_default with
  | Except.error e =>
    let (base, lib) := _base.dtor base lib
    (Constructed.threw e base, lib)
  | Except.ok e =>
    let (q, lib) := initFn e._event initArgs this_cb lib
    let r := q.status
    let base : _base := { _event_source := (q.written.map some).getD base._event_source }
    if r < 0 then
      let (base, lib) := _base.dtor base lib
      (Constructed.threw (error.mk r) base, lib)
    else (Constructed.done { base with cb_addr := this_cb, cb := cb }, lib)

/-- The contract of a registration function of the library: a successful
registration stores the pointer to the new source, and that source holds the
userdata the registration was given. -/
def StoresUserdata {InitArgs : Type}
    (initFn : Option Loop → InitArgs → Addr → Sources → OutCall Source × Sources) : Prop :=
  ∀ l a u lib, 0 ≤ (initFn l a u lib).1.status →
    ∃ s, (initFn l a u lib).1.written = some s ∧ ((initFn l a u lib).2 s).userdata = u

/-- A registration function that succeeds with status `0` and creates the new
source at the address `s`. -/
def register_at {InitArgs : Type} (s : Source) :
    Option Loop → InitArgs → Addr → Sources → OutCall Source × Sources :=
  fun l _ u lib => ({ status := 0, written := some s }, lib.set s (sd_event_source.registered l u))

/-- A registration function that fails with the status `r`, storing `stored`
through the out-pointer and leaving the source objects as they are. -/
def register_fails {InitArgs : Type} (r : Int) (stored : Option Source) :
    Option Loop → InitArgs → Addr → Sources → OutCall Source × Sources :=
  fun _ _ _ lib => ({ status := r, written := stored }, lib)

/-- `void io::set_io_fd(int fd)` -/
def io.set_io_fd (self : _base) (fd : Int) (status : Int) (lib : Sources) :
    Except error Unit × Sources :=
  let (r, lib) := sd_event_source_set_io_fd self._event_source fd status lib
  if r < 0 then (throw (error.mk r), lib) else (pure (), lib)

/-- `void io::set_io_events(uint32_t events)` -/
def io.set_io_events (self : _base) (events : Nat) (status : Int) (lib : Sources) :
    Except error Unit × Sources :=
  let (r, lib) := sd_event_source_set_io_events self._event_source events status lib
  if r < 0 then (throw (error.mk r), lib) else (pure (), lib)

/-- `void time::set_time(uint64_t usec)` -/
def time.set_time (self : _base) (usec : Nat) (status : Int) (lib : Sources) :
    Except error Unit × Sources :=
  let (r, lib) := sd_event_source_set_time self._event_source usec status lib
  if r < 0 then (throw (error.mk r), lib) else (pure (), lib)

/-- `void time::set_time_accuracy(uint64_t usec)` -/
def time.set_time_accuracy (self : _base) (usec : Nat) (status : Int) (lib : Sources) :
    Except error Unit × Sources :=
  let (r, lib) := sd_event_source_set_time_accuracy self._event_source usec status lib
  if r < 0 then (throw (error.mk r), lib) else (pure (), lib)

/-- A public operation on a source wrapper: those of `_base` and those of the
kinds `io`, `time`, `signal` and `child`.  A getter only reads the source
object; a setter carries the status the library answers with. -/
inductive Op where
  | get_event
  | get_userdata
  | set_userdata (userdata : Addr)
  | set_description (description : String) (status : Int)
  | get_description
  | set_prepare (callback : Option Addr) (status : Int)
  | get_pending
  | get_priority
  | set_priority (priority : Int) (status : Int)
  | get_enabled
  | set_enabled (enabled : Int) (status : Int)
  | get_io_fd
  | set_io_fd (fd : Int) (status : Int)
  | get_io_events
  | set_io_events (events : Nat) (status : Int)
  | get_io_revents
  | get_time
  | set_time (usec : Nat) (status : Int)
  | get_time_accuracy
  | set_time_accuracy (usec : Nat) (status : Int)
  | get_time_clock
  | get_signal
  | get_child_pid
deriving DecidableEq, Repr

/-- The source objects of the library after one public operation on the
wrapper `self`. -/
def Op.step (self : _base) : Op → Sources → Sources
  | .get_event, lib => lib
  | .get_userdata, lib => lib
  | .set_userdata u, lib => (self.set_userdata u lib).2
  | .set_description d r, lib => (self.set_description d r lib).2
  | .get_description, lib => lib
  | .set_prepare c r, lib => (self.set_prepare c r lib).2
  | .get_pending, lib => lib
  | .get_priority, lib => lib
  | .set_priority p r, lib => (self.set_priority p r lib).2
  | .get_enabled, lib => lib
  | .set_enabled e r, lib => (self.set_enabled e r lib).2
  | .get_io_fd, lib => lib
  | .set_io_fd fd r, lib => (io.set_io_fd self fd r lib).2
  | .get_io_events, lib => lib
  | .set_io_events ev r, lib => (io.set_io_events self ev r lib).2
  | .get_io_revents, lib => lib
  | .get_time, lib => lib
  | .set_time u r, lib => (time.set_time self u r lib).2
  | .get_time_accuracy, lib => lib
  | .set_time_accuracy u r, lib => (time.set_time_accuracy self u r lib).2
  | .get_time_clock, lib => lib
  | .get_signal, lib => lib
  | .get_child_pid, lib => lib

/-- The source objects of the library after a sequence of public operations. -/
def runOps (self : _base) : List Op → Sources → Sources
  | [], lib => lib
  | op :: ops, lib => runOps self ops (Op.step self op lib)

/-- The `userdata` argument the loop passes to the trampoline when it
dispatches the source of the wrapper `self`: the pointer stored in the source
object. -/
def dispatched_userdata (self : _base) (lib : Sources) : Addr :=
  sd_event_source_get_userdata self._event_source lib

/-- One dispatch of the source of the wrapper `self` by the loop:
`callback(s, args..., s->userdata)` with the trampoline as callback. -/
def dispatch_source {Args W : Type} (deref : Addr → Callback Args W) (self : _base)
    (lib : Sources) (args : Args) (w : W) : Except Thrown Int × W :=
  _handler.call deref self._event_source args (dispatched_userdata self lib) w

/-- The wrapper `w` holds a source whose userdata is the address of the
member `cb` of `w`. -/
def Registered {Args W : Type} (w : _wrapper Args W) (lib : Sources) : Prop :=
  ∃ s, w._event_source = some s ∧ (lib s).userdata = w.cb_addr

/-- The operation is a call of `_base::set_userdata`. -/
def Op.isSetUserdata : Op → Bool
  | .set_userdata _ => true
  | _ => false

namespace io

/-- `uint32_t io::get_io_revents()` -/
def get_io_revents (sd_event_source_get_io_revents : Option Source → OutCall Nat)
    (self : _base) : Except error Nat :=
  let revents : Nat := 0
  let q := sd_event_source_get_io_revents self._event_source
  let r := q.status
  let revents := q.written.getD revents
  if r < 0 ∧ r ≠ -ENODATA then throw (error.mk r)
  else pure revents

end io

namespace time

/-- `clockid_t time::get_time_clock()`: the local `clock` receives what the
library stores and is not used afterwards; the function returns `r`. -/
def get_time_clock (sd_event_source_get_time_clock : Option Source → OutCall Int)
    (self : _base) : Except error Int :=
  let q := sd_event_source_get_time_clock self._event_source
  let r := q.status
  let _clock := q.written
  if r < 0 then throw (error.mk r)
  else pure r

/-- `uint64_t time::get_time()`, a sibling getter: it returns the value the
library stored. -/
def get_time (sd_event_source_get_time : Option Source → OutCall Nat) (usec0 : Nat)
    (self : _base) : Except error Nat :=
  let q := sd_event_source_get_time self._event_source
  let r := q.status
  let usec := q.written.getD usec0
  if r < 0 then throw (error.mk r)
  else pure usec

end time

end event_source

/-- `int event::get_exit_code()`, a sibling getter of `get_iteration`: it
returns the value the library stored (`code0` is the content of the
uninitialised local before the call). -/
def event.get_exit_code (sd_event_get_exit_code : Option Loop → OutCall Int) (code0 : Int)
    (self : event) : Except error Int :=
  let q := sd_event_get_exit_code self._event
  let r := q.status
  let code := q.written.getD code0
  if r < 0 then throw (error.mk r)
  else pure code

/-- Uniform translation of a library status `r` into the result `res` of a
`void` operation: an error is raised exactly when `r` is negative, the error
raised is `error(r)`, and every other status gives normal completion. -/
def TranslatesStatus (r : Int) (res : Except error Unit) : Prop :=
  ((∃ e, res = Except.error e) ↔ r < 0) ∧
  (r < 0 → res = Except.error (error.mk r)) ∧
  (0 ≤ r → res = Except.ok ())

/-! ## Theorems -/

theorem translates_of_guard (r : Int) :
    TranslatesStatus r (if r < 0 then throw (error.mk r) else pure ()) := by
  unfold TranslatesStatus
  by_cases h : r < 0
  · rw [if_pos h]
    refine ⟨⟨fun _ => h, fun _ => ⟨error.mk r, rfl⟩⟩, fun _ => rfl, fun h0 => ?_⟩
    omega
  · rw [if_neg h]
    refine ⟨⟨?_, fun hf => absurd hf h⟩, fun hr => absurd hr h, fun _ => rfl⟩
    rintro ⟨e, he⟩
    cases he

/-- C10: each of `event::prepare`, `wait`, `dispatch`, `run`, `loop` and `exit`
translates the status `r` of its library call uniformly: it raises an error
exactly when `r < 0`, the error raised is `error(r)`, and for every `r >= 0`
it completes normally. -/
theorem event_drive_status_translation
    (sd_event_prepare sd_event_dispatch sd_event_loop : Option Loop → Int)
    (sd_event_wait sd_event_run : Option Loop → Nat → Int)
    (sd_event_exit : Option Loop → Int → Int)
    (self : event) (usec : Nat) (code : Int) :
    TranslatesStatus (sd_event_prepare self._event) (self.prepare sd_event_prepare) ∧
    TranslatesStatus (sd_event_wait self._event usec) (self.wait sd_event_wait usec) ∧
    TranslatesStatus (sd_event_dispatch self._event) (self.dispatch sd_event_dispatch) ∧
    TranslatesStatus (sd_event_run self._event usec) (self.run sd_event_run usec) ∧
    TranslatesStatus (sd_event_loop self._event) (self.loop sd_event_loop) ∧
    TranslatesStatus (sd_event_exit self._event code) (self.exit sd_event_exit code) :=
  ⟨translates_of_guard _, translates_of_guard _, translates_of_guard _,
   translates_of_guard _, translates_of_guard _, translates_of_guard _⟩

/-- A loop that rejects `prepare` with status `-116` surfaces as `error(-116)`,
and a positive status of `run` completes normally. -/
theorem event_drive_status_translation_witness :
    event.prepare (fun _ => -116) { _event := some 0 } = Except.error (error.mk (-116)) ∧
    event.run (fun _ _ => 1) { _event := some 0 } 7 = Except.ok () := by
  have h := event_drive_status_translation (fun _ => -116) (fun _ => 0) (fun _ => 0)
    (fun _ _ => 0) (fun _ _ => 1) (fun _ _ => 0) { _event := some 0 } 7 0
  exact ⟨h.1.2.1 (by decide), h.2.2.2.1.2.2 (by decide)⟩

/-- C4 as stated fails: no observation of the result of `event::prepare` tells
a step that reports a pending source (status 1) from a step that reports none
(status 0). -/
theorem prepare_pending_counterexample :
    ¬ ∃ observe : Except error Unit → Bool,
      observe (event.prepare (fun _ => 1) { _event := some 0 }) = true ∧
      observe (event.prepare (fun _ => 0) { _event := some 0 }) = false := by
  rintro ⟨observe, h1, h0⟩
  have e : event.prepare (fun _ => 1) { _event := some 0 }
      = event.prepare (fun _ => 0) { _event := some 0 } := rfl
  rw [e, h0] at h1
  cases h1

/-- C4 amended: `event::prepare` returns no value; whenever the library step
succeeds (status `>= 0`) it completes normally with the same result, whether
the step reports a pending source (positive status) or none (status `0`). -/
theorem prepare_discards_pending (f g : Option Loop → Int) (self : event)
    (hf : 0 < f self._event) (hg : g self._event = 0) :
    self.prepare f = Except.ok () ∧ self.prepare g = Except.ok () ∧
    self.prepare f = self.prepare g := by
  have h1 : self.prepare f = Except.ok () := by
    have : ¬ f self._event < 0 := by omega
    simp [event.prepare, this]; rfl
  have h2 : self.prepare g = Except.ok () := by
    simp [event.prepare, hg]; rfl
  exact ⟨h1, h2, h1.trans h2.symm⟩

/-- Statuses `3` and `0` of the library step give the same result. -/
theorem prepare_discards_pending_witness :
    event.prepare (fun _ => 3) { _event := some 0 }
      = event.prepare (fun _ => 0) { _event := some 0 } :=
  (prepare_discards_pending (fun _ => 3) (fun _ => 0) { _event := some 0 }
    (by decide) rfl).2.2

/-- C3: on a loop whose iteration query succeeds with status `0` and stores the
iteration counter `5`, `event::get_iteration` returns `0`, not `5`. -/
theorem get_iteration_returns_status :
    event.get_iteration (fun _ => { status := 0, written := some 5 }) { _event := some 0 }
      = Except.ok 0 ∧
    event.get_iteration (fun _ => { status := 0, written := some 5 }) { _event := some 0 }
      ≠ Except.ok 5 := by
  constructor
  · rfl
  · intro h
    have h2 : (Except.ok (to_uint64 0) : Except error Nat) = Except.ok 5 := h
    injection h2 with h3
    exact absurd h3 (by decide)

/-- The sibling getter `event::get_exit_code` returns the value the library
stored whenever the query succeeds. -/
theorem get_exit_code_returns_written (f : Option Loop → OutCall Int) (code0 c : Int)
    (self : event) (hs : 0 ≤ (f self._event).status) (hw : (f self._event).written = some c) :
    self.get_exit_code f code0 = Except.ok c := by
  have : ¬ (f self._event).status < 0 := by omega
  simp [event.get_exit_code, this, hw]; rfl

/-- The result of `event::get_iteration` never depends on the counter stored by
the library. -/
theorem get_iteration_ignores_counter (r : Int) (n m : Option Nat) (self : event) :
    self.get_iteration (fun _ => { status := r, written := n })
      = self.get_iteration (fun _ => { status := r, written := m }) := rfl

namespace event_source

/-- C5: `io::get_io_revents` treats "no data" as recoverable.  When the query
reports `-ENODATA` the call does not raise, and returns the empty mask `0`
(the query having stored nothing); when it reports any other negative status
`r` the call raises `error(r)`; when it succeeds the call returns exactly the
mask the query stored. -/
theorem get_io_revents_spec (query : Option Source → OutCall Nat) (self : _base) :
    ((query self._event_source).status = -ENODATA →
      (∃ m, io.get_io_revents query self = Except.ok m) ∧
      ((query self._event_source).written = none →
        io.get_io_revents query self = Except.ok 0)) ∧
    ((query self._event_source).status < 0 →
      (query self._event_source).status ≠ -ENODATA →
      io.get_io_revents query self
        = Except.error (error.mk (query self._event_source).status)) ∧
    (∀ m, 0 ≤ (query self._event_source).status →
      (query self._event_source).written = some m →
      io.get_io_revents query self = Except.ok m) := by
  refine ⟨fun h => ⟨⟨(query self._event_source).written.getD 0, ?_⟩, fun hw => ?_⟩,
    fun h1 h2 => ?_, fun m h1 hw => ?_⟩
  · have hn : ¬ ((query self._event_source).status < 0 ∧
        (query self._event_source).status ≠ -ENODATA) := fun hc => hc.2 h
    unfold io.get_io_revents
    simp only []
    rw [if_neg hn]
    rfl
  · have hn : ¬ ((query self._event_source).status < 0 ∧
        (query self._event_source).status ≠ -ENODATA) := fun hc => hc.2 h
    unfold io.get_io_revents
    simp only []
    rw [if_neg hn, hw]
    rfl
  · unfold io.get_io_revents
    simp only []
    rw [if_pos ⟨h1, h2⟩]
    rfl
  · have hn : ¬ ((query self._event_source).status < 0 ∧
        (query self._event_source).status ≠ -ENODATA) := fun hc => by omega
    unfold io.get_io_revents
    simp only []
    rw [if_neg hn, hw]
    rfl

/-- The three cases of `io::get_io_revents` on concrete answers of the query:
no data, the status `-9`, and success with the mask `5`. -/
theorem get_io_revents_spec_witness :
    io.get_io_revents (fun _ => { status := -61, written := none }) { _event_source := some 3 }
      = Except.ok 0 ∧
    io.get_io_revents (fun _ => { status := -9, written := none }) { _event_source := some 3 }
      = Except.error (error.mk (-9)) ∧
    io.get_io_revents (fun _ => { status := 0, written := some 5 }) { _event_source := some 3 }
      = Except.ok 5 :=
  ⟨((get_io_revents_spec (fun _ => { status := -61, written := none })
      { _event_source := some 3 }).1 (by decide)).2 rfl,
   (get_io_revents_spec (fun _ => { status := -9, written := none })
      { _event_source := some 3 }).2.1 (by decide) (by decide),
   (get_io_revents_spec (fun _ => { status := 0, written := some 5 })
      { _event_source := some 3 }).2.2 5 (by decide) rfl⟩

/-- C7: on a timer source created with the clock domain `1` (`CLOCK_MONOTONIC`)
whose clock query succeeds with status `0` and stores `1`,
`time::get_time_clock` returns `0` (`CLOCK_REALTIME`), not `1`. -/
theorem get_time_clock_returns_status :
    time.get_time_clock (fun _ => { status := 0, written := some 1 }) { _event_source := some 3 }
      = Except.ok 0 ∧
    time.get_time_clock (fun _ => { status := 0, written := some 1 }) { _event_source := some 3 }
      ≠ Except.ok 1 := by
  constructor
  · rfl
  · intro h
    have h2 : (Except.ok 0 : Except error Int) = Except.ok 1 := h
    injection h2 with h3
    exact absurd h3 (by decide)

/-- The sibling getter `time::get_time` returns the value the library stored
whenever the query succeeds. -/
theorem get_time_returns_written (f : Option Source → OutCall Nat) (usec0 u : Nat)
    (self : _base) (hs : 0 ≤ (f self._event_source).status)
    (hw : (f self._event_source).written = some u) :
    time.get_time f usec0 self = Except.ok u := by
  have : ¬ (f self._event_source).status < 0 := by omega
  simp [time.get_time, this, hw]; rfl

/-- C2 as stated fails: a callback that throws an exception of a type other
than `error` makes the trampoline end with that exception instead of an
integer outcome. -/
theorem call_propagates_counterexample :
    ¬ ∃ n : Int,
      (_handler.call (fun _ => fun (_ : Unit) (w : Unit) =>
          (Except.error (Thrown.other "std::runtime_error"), w)) none () 0 ()).1
        = Except.ok n := by
  rintro ⟨n, h⟩
  have h2 : (Except.error (Thrown.other "std::runtime_error") : Except Thrown Int)
      = Except.ok n := h
  cases h2

/-- C2 amended: for every callback that completes normally or raises the
binding's own `error`, the trampoline returns an integer outcome and no
exception leaves it. -/
theorem call_catches_error {Args W : Type} (deref : Addr → Callback Args W)
    (_es : Option Source) (args : Args) (userdata : Addr) (w : W)
    (h : ∀ x, ((deref userdata) args w).1 ≠ Except.error (Thrown.other x)) :
    ∃ n : Int, (_handler.call deref _es args userdata w).1 = Except.ok n := by
  unfold _handler.call
  rcases hcb : (deref userdata) args w with ⟨res, w1⟩
  rw [hcb] at h
  cases res with
  | ok u => exact ⟨0, rfl⟩
  | error t =>
    cases t with
    | sd_error e => exact ⟨e.code, rfl⟩
    | other y => exact absurd rfl (h y)

/-- A callback raising `error(-5)` gives an integer outcome. -/
theorem call_catches_error_witness :
    ∃ n : Int, (_handler.call (fun _ => fun (_ : Unit) (w : Unit) =>
        (Except.error (Thrown.sd_error (error.mk (-5))), w)) none () 0 ()).1 = Except.ok n :=
  call_catches_error (fun _ => fun (_ : Unit) (w : Unit) =>
        (Except.error (Thrown.sd_error (error.mk (-5))), w)) none () 0 ()
      (fun x h => by cases h)

/-- An exception of a type other than `error` is not caught by the trampoline:
it leaves `call` as it was thrown. -/
theorem call_lets_other_through {Args W : Type} (deref : Addr → Callback Args W)
    (_es : Option Source) (args : Args) (userdata : Addr) (w : W) (x : String)
    (h : ((deref userdata) args w).1 = Except.error (Thrown.other x)) :
    (_handler.call deref _es args userdata w).1 = Except.error (Thrown.other x) := by
  unfold _handler.call
  rcases hcb : (deref userdata) args w with ⟨res, w1⟩
  rw [hcb] at h
  cases h
  rfl

/-- C9: the trampoline runs the callback that `userdata` points to once on the
given arguments (the state afterwards is that of one run of the callback, and
an instrumented callback records exactly one invocation, with those
arguments); it returns `0` when the callback completes normally and `e.code`
when the callback raises the `error` `e`; so a non-zero result means the
callback raised an error. -/
theorem call_outcome {Args W : Type} (deref : Addr → Callback Args W)
    (_es : Option Source) (args : Args) (userdata : Addr) (w : W) (log : List Args) :
    (_handler.call deref _es args userdata w).2 = ((deref userdata) args w).2 ∧
    (_handler.call (fun a => logged (deref a)) _es args userdata (log, w)).2.1
      = log ++ [args] ∧
    (((deref userdata) args w).1 = Except.ok () →
      (_handler.call deref _es args userdata w).1 = Except.ok 0) ∧
    (∀ e : error, ((deref userdata) args w).1 = Except.error (Thrown.sd_error e) →
      (_handler.call deref _es args userdata w).1 = Except.ok e.code) ∧
    (∀ n : Int, (_handler.call deref _es args userdata w).1 = Except.ok n → n ≠ 0 →
      ∃ e : error, ((deref userdata) args w).1 = Except.error (Thrown.sd_error e) ∧
        e.code = n) := by
  refine ⟨?_, ?_, ?_⟩
  · unfold _handler.call
    rcases (deref userdata) args w with ⟨res, w1⟩
    cases res with
    | ok u => rfl
    | error t => cases t <;> rfl
  · unfold _handler.call logged
    dsimp only
    rcases (deref userdata) args w with ⟨res, w1⟩
    cases res with
    | ok u => rfl
    | error t => cases t <;> rfl
  · unfold _handler.call
    rcases (deref userdata) args w with ⟨res, w1⟩
    cases res with
    | ok u =>
      refine ⟨fun _ => rfl, fun e he => (by cases he), fun n hn hne => ?_⟩
      have h0 : (0 : Int) = n := by
        have h2 : (Except.ok 0 : Except Thrown Int) = Except.ok n := hn
        injection h2
      exact absurd h0.symm hne
    | error t =>
      cases t with
      | sd_error e =>
        refine ⟨fun h => (by cases h), fun e2 he => ?_, fun n hn _ => ⟨e, rfl, ?_⟩⟩
        · cases he
          rfl
        · have h2 : (Except.ok e.code : Except Thrown Int) = Except.ok n := hn
          injection h2
      | other y =>
        refine ⟨fun h => (by cases h), fun e2 he => (by cases he), fun n hn _ => ?_⟩
        have h2 : (Except.error (Thrown.other y) : Except Thrown Int) = Except.ok n := hn
        cases h2

/-- A callback that adds its argument to a counter and then raises
`error(-22)`: one run, outcome `-22`. -/
theorem call_outcome_witness :
    (_handler.call (fun _ => fun (a : Nat) (w : Nat) =>
        (Except.error (Thrown.sd_error (error.mk (-22))), w + a)) none 4 0 10)
      = (Except.ok (-22), 14) := by
  have h := call_outcome (fun _ => fun (a : Nat) (w : Nat) =>
        (Except.error (Thrown.sd_error (error.mk (-22))), w + a)) none 4 0 10 []
  exact Prod.ext (h.2.2.2.1 (error.mk (-22)) rfl) h.1

/-- C6 as stated fails: when acquiring the default loop fails with status
`-12`, the constructor raises `error(-12)` although the registration function
returns no negative status (it is not even called). -/
theorem wrapper_ctor_counterexample :
    (∀ (l : Option Loop) (a : Unit) (u : Addr) (lib : Sources),
      0 ≤ ((register_at 7 : Option Loop → Unit → Addr → Sources → OutCall Source × Sources)
        l a u lib).1.status) ∧
    (_wrapper.ctor { status := -12, written := none } (register_at 7) 100
        (fun (_ : Unit) (w : Unit) => (Except.ok (), w)) ()
        (fun _ => sd_event_source.registered none 0)).1
      = Constructed.threw (error.mk (-12)) { _event_source := none } :=
  ⟨fun _ _ _ _ => Int.le_refl 0, rfl⟩

theorem ctor_default_fails {Args W InitArgs : Type} (d : OutCall Loop)
    (initFn : Option Loop → InitArgs → Addr → Sources → OutCall Source × Sources)
    (this_cb : Addr) (cb : Callback Args W) (initArgs : InitArgs) (lib : Sources)
    (hd : d.status < 0) :
    _wrapper.ctor d initFn this_cb cb initArgs lib
      = (Constructed.threw (error.mk d.status) { _event_source := none }, lib) := by
  simp only [_wrapper.ctor, event.ctor_default, if_pos hd]
  rfl

theorem ctor_default_ok {Args W InitArgs : Type} (d : OutCall Loop)
    (initFn : Option Loop → InitArgs → Addr → Sources → OutCall Source × Sources)
    (this_cb : Addr) (cb : Callback Args W) (initArgs : InitArgs) (lib : Sources)
    (hd : ¬ d.status < 0) :
    _wrapper.ctor d initFn this_cb cb initArgs lib
      = if (initFn d.written initArgs this_cb lib).1.status < 0
        then (Constructed.threw (error.mk (initFn d.written initArgs this_cb lib).1.status)
            (_base.dtor
              { _event_source := (initFn d.written initArgs this_cb lib).1.written }
              (initFn d.written initArgs this_cb lib).2).1,
          (_base.dtor
              { _event_source := (initFn d.written initArgs this_cb lib).1.written }
              (initFn d.written initArgs this_cb lib).2).2)
        else (Constructed.done
            { _event_source := (initFn d.written initArgs this_cb lib).1.written,
              cb_addr := this_cb, cb := cb },
          (initFn d.written initArgs this_cb lib).2) := by
  have hw : ∀ {α : Type} (o : Option α), (o.map some).getD none = o := by
    intro α o; cases o <;> rfl
  simp only [_wrapper.ctor, event.ctor_default, if_neg hd, _base.ctor, hw]
  rfl

theorem unwound_null (b : _base) (lib : Sources) :
    (_base.dtor b lib).1 = { _event_source := none } := by
  unfold _base.dtor sd_event_source_unref
  cases b._event_source <;> rfl

/-- C6 amended: the constructor of a source wrapper first acquires the default
loop; if that fails with status `r0 < 0` it raises `error(r0)` without calling
the registration function.  Otherwise it raises exactly when the registration
function returns a negative status `r`, and the error raised is `error(r)`.
Whenever it raises, no source handle is retained: the source pointer of the
wrapper is null, whatever the library answered.  With a status `>= 0`
construction completes and the wrapper holds the source pointer the
registration stored. -/
theorem wrapper_ctor_spec {Args W InitArgs : Type} (d : OutCall Loop)
    (initFn : Option Loop → InitArgs → Addr → Sources → OutCall Source × Sources)
    (this_cb : Addr) (cb : Callback Args W) (initArgs : InitArgs) (lib : Sources) :
    (∀ e b, (_wrapper.ctor d initFn this_cb cb initArgs lib).1 = Constructed.threw e b →
      b._event_source = none) ∧
    (d.status < 0 →
      (_wrapper.ctor d initFn this_cb cb initArgs lib).1
        = Constructed.threw (error.mk d.status) { _event_source := none } ∧
      (_wrapper.ctor d initFn this_cb cb initArgs lib).2 = lib) ∧
    (0 ≤ d.status →
      ((∃ e b, (_wrapper.ctor d initFn this_cb cb initArgs lib).1 = Constructed.threw e b) ↔
        (initFn d.written initArgs this_cb lib).1.status < 0) ∧
      ((initFn d.written initArgs this_cb lib).1.status < 0 →
        (_wrapper.ctor d initFn this_cb cb initArgs lib).1
          = Constructed.threw (error.mk (initFn d.written initArgs this_cb lib).1.status)
              { _event_source := none }) ∧
      (0 ≤ (initFn d.written initArgs this_cb lib).1.status →
        (_wrapper.ctor d initFn this_cb cb initArgs lib).1
          = Constructed.done
              { _event_source := (initFn d.written initArgs this_cb lib).1.written,
                cb_addr := this_cb, cb := cb } ∧
        (_wrapper.ctor d initFn this_cb cb initArgs lib).2
          = (initFn d.written initArgs this_cb lib).2)) := by
  by_cases hd : d.status < 0
  · rw [ctor_default_fails d initFn this_cb cb initArgs lib hd]
    refine ⟨fun e b h => ?_, fun _ => ⟨rfl, rfl⟩, fun h0 => ?_⟩
    · cases h
      rfl
    · omega
  · rw [ctor_default_ok d initFn this_cb cb initArgs lib hd]
    by_cases hq : (initFn d.written initArgs this_cb lib).1.status < 0
    · rw [if_pos hq, unwound_null]
      refine ⟨fun e b h => ?_, fun h0 => absurd h0 hd, fun _ =>
        ⟨⟨fun _ => hq, fun _ => ⟨_, _, rfl⟩⟩, fun _ => rfl, fun h0 => ?_⟩⟩
      · cases h
        rfl
      · omega
    · rw [if_neg hq]
      refine ⟨fun e b h => (by cases h), fun h0 => absurd h0 hd, fun _ =>
        ⟨⟨?_, fun h => absurd h hq⟩, fun h => absurd h hq, fun _ => ⟨rfl, rfl⟩⟩⟩
      rintro ⟨e, b, he⟩
      cases he

/-- Registration of a source on the loop `4`: a registration failing with
`-22` raises `error(-22)` and no source handle is retained, even when the
failing registration stored the pointer `9`; a successful one gives the
wrapper of the source `9`. -/
theorem wrapper_ctor_spec_witness :
    (_wrapper.ctor { status := 0, written := some 4 } (register_fails (-22) (some 9)) 100
        (fun (_ : Unit) (w : Unit) => (Except.ok (), w)) ()
        (fun _ => sd_event_source.registered none 0)).1
      = Constructed.threw (error.mk (-22)) { _event_source := none } ∧
    (_wrapper.ctor { status := 0, written := some 4 } (register_at 9) 100
        (fun (_ : Unit) (w : Unit) => (Except.ok (), w)) ()
        (fun _ => sd_event_source.registered none 0)).1
      = Constructed.done
          { _event_source := some 9, cb_addr := 100,
            cb := fun (_ : Unit) (w : Unit) => (Except.ok (), w) } :=
  ⟨((wrapper_ctor_spec { status := 0, written := some 4 } (register_fails (-22) (some 9)) 100
        (fun (_ : Unit) (w : Unit) => (Except.ok (), w)) ()
        (fun _ => sd_event_source.registered none 0)).2.2 (by decide)).2.1
        (by decide),
   (((wrapper_ctor_spec { status := 0, written := some 4 } (register_at 9) 100
        (fun (_ : Unit) (w : Unit) => (Except.ok (), w)) ()
        (fun _ => sd_event_source.registered none 0)).2.2 (by decide)).2.2
        (by decide)).1⟩

theorem userdata_set_other (lib : Sources) (a s : Source) (v : sd_event_source)
    (hv : v.userdata = (lib a).userdata) : (lib.set a v s).userdata = (lib s).userdata := by
  unfold Sources.set
  by_cases h : s = a
  · rw [if_pos h, hv, h]
  · rw [if_neg h]

theorem step_keeps_userdata (self : _base) (op : Op) (lib : Sources) (s : Source)
    (hop : op.isSetUserdata = false) :
    ((Op.step self op lib) s).userdata = (lib s).userdata := by
  cases op with
  | set_userdata u => cases hop
  | get_event => rfl
  | get_userdata => rfl
  | get_description => rfl
  | get_pending => rfl
  | get_priority => rfl
  | get_enabled => rfl
  | get_io_fd => rfl
  | get_io_events => rfl
  | get_io_revents => rfl
  | get_time => rfl
  | get_time_accuracy => rfl
  | get_time_clock => rfl
  | get_signal => rfl
  | get_child_pid => rfl
  | set_io_fd c r =>
    simp only [Op.step, io.set_io_fd, sd_event_source_set_io_fd]
    cases self._event_source with
    | none => by_cases hr : r < 0 <;> simp [hr]
    | some a =>
      by_cases hr : r < 0
      · simp [hr]
      · simp only [hr, if_false]
        exact userdata_set_other lib a s _ rfl
  | set_io_events c r =>
    simp only [Op.step, io.set_io_events, sd_event_source_set_io_events]
    cases self._event_source with
    | none => by_cases hr : r < 0 <;> simp [hr]
    | some a =>
      by_cases hr : r < 0
      · simp [hr]
      · simp only [hr, if_false]
        exact userdata_set_other lib a s _ rfl
  | set_time c r =>
    simp only [Op.step, time.set_time, sd_event_source_set_time]
    cases self._event_source with
    | none => by_cases hr : r < 0 <;> simp [hr]
    | some a =>
      by_cases hr : r < 0
      · simp [hr]
      · simp only [hr, if_false]
        exact userdata_set_other lib a s _ rfl
  | set_time_accuracy c r =>
    simp only [Op.step, time.set_time_accuracy, sd_event_source_set_time_accuracy]
    cases self._event_source with
    | none => by_cases hr : r < 0 <;> simp [hr]
    | some a =>
      by_cases hr : r < 0
      · simp [hr]
      · simp only [hr, if_false]
        exact userdata_set_other lib a s _ rfl
  | set_description d r =>
    simp only [Op.step, _base.set_description, sd_event_source_set_description]
    cases self._event_source with
    | none => by_cases hr : r < 0 <;> simp [hr]
    | some a =>
      by_cases hr : r < 0
      · simp [hr]
      · simp only [hr, if_false]
        exact userdata_set_other lib a s _ rfl
  | set_prepare c r =>
    simp only [Op.step, _base.set_prepare, sd_event_source_set_prepare]
    cases self._event_source with
    | none => by_cases hr : r < 0 <;> simp [hr]
    | some a =>
      by_cases hr : r < 0
      · simp [hr]
      · simp only [hr, if_false]
        exact userdata_set_other lib a s _ rfl
  | set_priority c r =>
    simp only [Op.step, _base.set_priority, sd_event_source_set_priority]
    cases self._event_source with
    | none => by_cases hr : r < 0 <;> simp [hr]
    | some a =>
      by_cases hr : r < 0
      · simp [hr]
      · simp only [hr, if_false]
        exact userdata_set_other lib a s _ rfl
  | set_enabled c r =>
    simp only [Op.step, _base.set_enabled, sd_event_source_set_enabled]
    cases self._event_source with
    | none => by_cases hr : r < 0 <;> simp [hr]
    | some a =>
      by_cases hr : r < 0
      · simp [hr]
      · simp only [hr, if_false]
        exact userdata_set_other lib a s _ rfl

theorem runOps_keeps_userdata (self : _base) (ops : List Op) (lib : Sources) (s : Source)
    (hops : ∀ op ∈ ops, op.isSetUserdata = false) :
    ((runOps self ops lib) s).userdata = (lib s).userdata := by
  induction ops generalizing lib with
  | nil => rfl
  | cons op ops ih =>
    have h1 := step_keeps_userdata self op lib s (hops op (List.mem_cons_self _ _))
    have h2 := ih (Op.step self op lib) (fun o ho => hops o (List.mem_cons_of_mem _ ho))
    show ((runOps self ops (Op.step self op lib)) s).userdata = (lib s).userdata
    rw [h2, h1]

/-- A wrapper that a successful construction gives, with the source objects
of the library as the construction left them, holds a source whose userdata
is the address `this_cb` of its member `cb`, and that member is the callback
given to the constructor. -/
theorem ctor_registers {Args W InitArgs : Type} (d : OutCall Loop)
    (initFn : Option Loop → InitArgs → Addr → Sources → OutCall Source × Sources)
    (this_cb : Addr) (cb : Callback Args W) (initArgs : InitArgs) (lib0 : Sources)
    (w : _wrapper Args W) (hinit : StoresUserdata initFn)
    (hctor : (_wrapper.ctor d initFn this_cb cb initArgs lib0).1 = Constructed.done w) :
    w.cb_addr = this_cb ∧ w.cb = cb ∧
    Registered w (_wrapper.ctor d initFn this_cb cb initArgs lib0).2 := by
  by_cases hd : d.status < 0
  · rw [ctor_default_fails d initFn this_cb cb initArgs lib0 hd] at hctor
    cases hctor
  · rw [ctor_default_ok d initFn this_cb cb initArgs lib0 hd] at hctor ⊢
    by_cases hq : (initFn d.written initArgs this_cb lib0).1.status < 0
    · rw [if_pos hq] at hctor
      cases hctor
    · rw [if_neg hq] at hctor ⊢
      have hwq := Constructed.done.inj hctor
      subst hwq
      obtain ⟨s, hs, hu⟩ := hinit d.written initArgs this_cb lib0 (by omega)
      exact ⟨rfl, rfl, s, hs, hu⟩

theorem registered_kept {Args W : Type} (w : _wrapper Args W) (lib : Sources)
    (ops : List Op) (hreg : Registered w lib)
    (hops : ∀ op ∈ ops, op.isSetUserdata = false) :
    dispatched_userdata w.to_base (runOps w.to_base ops lib) = w.cb_addr := by
  obtain ⟨s, hs, hu⟩ := hreg
  unfold dispatched_userdata sd_event_source_get_userdata
  rw [hs]
  show ((runOps w.to_base ops lib) s).userdata = w.cb_addr
  rw [runOps_keeps_userdata w.to_base ops lib s hops, hu]

/-- C8 as stated fails: a wrapper is constructed with its callback object at
address `100` (a callback that returns normally) and registers the source
`3`.  After the public operation `set_userdata(200)` the loop passes `200` to
the trampoline, which then runs the object at `200` (here a callback that
raises `error(-1)`) instead of the callback supplied at creation. -/
theorem userdata_fixed_counterexample :
    (_wrapper.ctor { status := 0, written := some 0 } (register_at 3) 100
        (fun (_ : Unit) (w : Unit) => (Except.ok (), w)) ()
        (fun _ => sd_event_source.registered none 0)).1
      = Constructed.done
          { _event_source := some 3, cb_addr := 100,
            cb := fun (_ : Unit) (w : Unit) => (Except.ok (), w) } ∧
    dispatched_userdata { _event_source := some 3 }
      (runOps { _event_source := some 3 } [Op.set_userdata 200]
        (_wrapper.ctor { status := 0, written := some 0 } (register_at 3) 100
          (fun (_ : Unit) (w : Unit) => (Except.ok (), w)) ()
          (fun _ => sd_event_source.registered none 0)).2) = 200 ∧
    (dispatch_source
      (fun a => if a = 100 then (fun (_ : Unit) (w : Unit) => (Except.ok (), w))
        else (fun (_ : Unit) (w : Unit) => (Except.error (Thrown.sd_error (error.mk (-1))), w)))
      { _event_source := some 3 }
      (runOps { _event_source := some 3 } [Op.set_userdata 200]
        (_wrapper.ctor { status := 0, written := some 0 } (register_at 3) 100
          (fun (_ : Unit) (w : Unit) => (Except.ok (), w)) ()
          (fun _ => sd_event_source.registered none 0)).2) () ()).1
      = Except.ok (-1) :=
  ⟨rfl, by decide, rfl⟩

/-- C8 amended: for every source wrapper that its constructor built (the
registration function storing the userdata it is given) and every sequence
of public operations on it other than `_base::set_userdata`, the userdata the
trampoline receives at dispatch is the address of the callback object stored
in the wrapper at construction, so the trampoline runs the callback supplied
at creation. -/
theorem userdata_fixed_without_set {Args W InitArgs : Type} (d : OutCall Loop)
    (initFn : Option Loop → InitArgs → Addr → Sources → OutCall Source × Sources)
    (this_cb : Addr) (cb : Callback Args W) (initArgs : InitArgs) (lib0 : Sources)
    (w : _wrapper Args W) (ops : List Op) (deref : Addr → Callback Args W)
    (args : Args) (st : W)
    (hinit : StoresUserdata initFn)
    (hctor : (_wrapper.ctor d initFn this_cb cb initArgs lib0).1 = Constructed.done w)
    (hmem : deref this_cb = cb)
    (hops : ∀ op ∈ ops, op.isSetUserdata = false) :
    w.cb_addr = this_cb ∧ w.cb = cb ∧
    dispatched_userdata w.to_base
      (runOps w.to_base ops (_wrapper.ctor d initFn this_cb cb initArgs lib0).2) = this_cb ∧
    dispatch_source deref w.to_base
      (runOps w.to_base ops (_wrapper.ctor d initFn this_cb cb initArgs lib0).2) args st
      = _handler.call (fun _ => cb) w._event_source args this_cb st := by
  obtain ⟨ha, hcb, hreg⟩ := ctor_registers d initFn this_cb cb initArgs lib0 w hinit hctor
  have hd := registered_kept w _ ops hreg hops
  rw [ha] at hd
  refine ⟨ha, hcb, hd, ?_⟩
  unfold dispatch_source
  rw [hd]
  unfold _handler.call
  rw [hmem]

theorem register_at_stores {InitArgs : Type} (s : Source) :
    StoresUserdata (register_at s : Option Loop → InitArgs → Addr → Sources →
      OutCall Source × Sources) := by
  intro l a u lib _
  refine ⟨s, rfl, ?_⟩
  simp [register_at, Sources.set, sd_event_source.registered]

/-- A wrapper constructed with its callback object at address `100` on the
source `3`: after a change of priority, of the interest mask and of the
enabled state the trampoline still receives `100`. -/
theorem userdata_fixed_without_set_witness :
    dispatched_userdata { _event_source := some 3 }
      (runOps { _event_source := some 3 }
        [Op.set_priority 5 0, Op.get_userdata, Op.set_io_events 1 0, Op.set_enabled 0 0]
        (_wrapper.ctor { status := 0, written := some 0 } (register_at 3) 100
          (fun (_ : Unit) (w : Unit) => (Except.ok (), w)) ()
          (fun _ => sd_event_source.registered none 0)).2) = 100 :=
  (userdata_fixed_without_set { status := 0, written := some 0 } (register_at 3) 100
    (fun (_ : Unit) (w : Unit) => (Except.ok (), w)) ()
    (fun _ => sd_event_source.registered none 0)
    ({ _event_source := some 3, cb_addr := 100,
       cb := fun (_ : Unit) (w : Unit) => (Except.ok (), w) } : _wrapper Unit Unit)
    [Op.set_priority 5 0, Op.get_userdata, Op.set_io_events 1 0, Op.set_enabled 0 0]
    (fun _ => fun (_ : Unit) (w : Unit) => (Except.ok (), w)) () ()
    (register_at_stores 3) rfl rfl (by decide)).2.2.1

/-- After `_base::set_userdata(u)` on a wrapper that holds a source, the loop
passes `u` to the trampoline. -/
theorem set_userdata_replaces (s : Source) (u : Addr) (lib : Sources) :
    dispatched_userdata { _event_source := some s }
      ((_base.set_userdata { _event_source := some s } u lib).2) = u := by
  simp [dispatched_userdata, sd_event_source_get_userdata, _base.set_userdata,
    sd_event_source_set_userdata, Sources.set]

end event_source

/-! ### The reference count under the handle operations -/

theorem count_append_one {α : Type} [BEq α] [LawfulBEq α] (xs : List α) (v a : α) :
    (xs ++ [v]).count a = xs.count a + (if v == a then 1 else 0) := by
  rw [List.count_append, List.count_singleton]

theorem count_set_add {α : Type} [BEq α] [LawfulBEq α] (xs : List α) (i : Nat) (x v a : α)
    (h : xs[i]? = some x) :
    (xs.set i v).count a + (if x == a then 1 else 0)
      = xs.count a + (if v == a then 1 else 0) := by
  induction xs generalizing i with
  | nil => simp at h
  | cons y ys ih =>
    cases i with
    | zero =>
      simp only [List.getElem?_cons_zero, Option.some.injEq] at h
      subst h
      simp only [List.set_cons_zero, List.count_cons]
      omega
    | succ j =>
      simp only [List.getElem?_cons_succ] at h
      have := ih j h
      simp only [List.set_cons_succ, List.count_cons]
      omega

theorem count_pos_of_getElem {α : Type} [BEq α] [LawfulBEq α] (xs : List α) (i : Nat) (a : α)
    (h : xs[i]? = some a) : 1 ≤ xs.count a :=
  List.count_pos_iff.mpr (List.getElem?_mem h)

theorem count_two_of_getElem {α : Type} [BEq α] [LawfulBEq α] (xs : List α) (i j : Nat)
    (a v : α) (hv : v ≠ a) (hi : xs[i]? = some a) (hj : xs[j]? = some a) (hij : i ≠ j) :
    2 ≤ xs.count a := by
  have h1 := count_set_add xs i a v a hi
  have h2 : (xs.set i v)[j]? = some a := by
    rw [List.getElem?_set_ne hij]; exact hj
  have h3 := count_pos_of_getElem (xs.set i v) j a h2
  have ha : (a == a) = true := beq_self_eq_true a
  have hva : ¬ ((v == a) = true) := fun h => hv (eq_of_beq h)
  rw [if_pos ha, if_neg hva] at h1
  omega

theorem obj_eq_some (h : Heap) (i : Nat) (e : event) (ho : h.obj i = some e) :
    h.handles[i]? = some (some e) := by
  unfold Heap.obj at ho
  rw [List.get?_eq_getElem?] at ho
  cases hx : h.handles[i]? with
  | none => rw [hx] at ho; cases ho
  | some y =>
    rw [hx] at ho
    cases y with
    | none => cases ho
    | some e2 =>
      have : e2 = e := by simpa using ho
      rw [this]

theorem key_beq (p : Option Loop) (l : Loop) :
    ((some (event.mk p) : Option event) == some (event.mk (some l))) = decide (p = some l) := by
  by_cases h : p = some l
  · subst h; simp
  · have : (some (event.mk p) : Option event) ≠ some (event.mk (some l)) := by
      intro hc
      injection hc with hc
      injection hc with hc
      exact h hc
    simp [h, this]

theorem none_beq_key (l : Loop) :
    ((none : Option event) == some (event.mk (some l))) = false := by
  simp

theorem handlesOn_alloc (h : Heap) (p : Option Loop) (l : Loop) :
    (h.alloc (event.mk p)).handlesOn l = h.handlesOn l + (if p = some l then 1 else 0) := by
  unfold Heap.handlesOn Heap.alloc
  simp only []
  rw [count_append_one, key_beq]
  by_cases hp : p = some l <;> simp [hp]

theorem handlesOn_write (h : Heap) (i : Nat) (p q : Option Loop) (l : Loop)
    (ho : h.obj i = some (event.mk p)) :
    (h.write i (event.mk q)).handlesOn l + (if p = some l then 1 else 0)
      = h.handlesOn l + (if q = some l then 1 else 0) := by
  have hg := obj_eq_some h i _ ho
  have hc := count_set_add h.handles i (some (event.mk p)) (some (event.mk q))
    (some (event.mk (some l))) hg
  rw [key_beq, key_beq] at hc
  unfold Heap.handlesOn Heap.write
  simp only []
  by_cases hp : p = some l <;> by_cases hq : q = some l <;> simp [hp, hq] at hc ⊢ <;> omega

theorem handlesOn_dealloc (h : Heap) (i : Nat) (p : Option Loop) (l : Loop)
    (ho : h.obj i = some (event.mk p)) :
    (h.dealloc i).handlesOn l + (if p = some l then 1 else 0) = h.handlesOn l := by
  have hg := obj_eq_some h i _ ho
  have hc := count_set_add h.handles i (some (event.mk p)) none
    (some (event.mk (some l))) hg
  rw [key_beq, none_beq_key] at hc
  unfold Heap.handlesOn Heap.dealloc
  simp only []
  by_cases hp : p = some l <;> simp [hp] at hc ⊢ <;> omega

theorem obj_write_self (h : Heap) (i : Nat) (e v : event) (ho : h.obj i = some e) :
    (h.write i v).obj i = some v := by
  have hg := obj_eq_some h i _ ho
  have hlt : i < h.handles.length := by
    rcases List.getElem?_eq_some.mp hg with ⟨hl, _⟩
    exact hl
  unfold Heap.obj Heap.write
  simp only []
  rw [List.get?_eq_getElem?, List.getElem?_set_eq_of_lt _ hlt]
  rfl

theorem obj_write_ne (h : Heap) (i j : Nat) (v : event) (hij : i ≠ j) :
    (h.write i v).obj j = h.obj j := by
  unfold Heap.obj Heap.write
  simp only []
  rw [List.get?_eq_getElem?, List.get?_eq_getElem?, List.getElem?_set_ne hij]

theorem handlesOn_pos (h : Heap) (i : Nat) (l : Loop)
    (ho : h.obj i = some (event.mk (some l))) : 1 ≤ h.handlesOn l :=
  count_pos_of_getElem h.handles i _ (obj_eq_some h i _ ho)

theorem handlesOn_two (h : Heap) (i j : Nat) (l : Loop) (hij : i ≠ j)
    (hi : h.obj i = some (event.mk (some l))) (hj : h.obj j = some (event.mk (some l))) :
    2 ≤ h.handlesOn l :=
  count_two_of_getElem h.handles i j _ none (by simp)
    (obj_eq_some h i _ hi) (obj_eq_some h j _ hj) hij

theorem ref_handles (h : Heap) (p : Option Loop) : (sd_event_ref h p).handles = h.handles := by
  cases p <;> rfl

theorem ref_freed (h : Heap) (p : Option Loop) : (sd_event_ref h p).freed = h.freed := by
  cases p <;> rfl

theorem ref_n_ref (h : Heap) (p : Option Loop) (l : Loop) :
    (sd_event_ref h p).n_ref l = h.n_ref l + (if p = some l then 1 else 0) := by
  cases p with
  | none => simp [sd_event_ref]
  | some a =>
    simp only [sd_event_ref, Option.some.injEq]
    by_cases hl : l = a
    · subst hl; simp
    · have : ¬ a = l := fun hc => hl hc.symm
      simp [hl, this]

theorem unref_handles (h : Heap) (p : Option Loop) :
    (sd_event_unref h p).2.handles = h.handles := by
  cases p <;> rfl

theorem unref_n_ref (h : Heap) (p : Option Loop) (l : Loop) :
    (sd_event_unref h p).2.n_ref l = h.n_ref l - (if p = some l then 1 else 0) := by
  cases p with
  | none => simp [sd_event_unref]
  | some a =>
    simp only [sd_event_unref, Option.some.injEq]
    by_cases hl : l = a
    · subst hl; simp
    · have : ¬ a = l := fun hc => hl hc.symm
      simp [hl, this]

theorem unref_freed (h : Heap) (p : Option Loop) (l : Loop) :
    (sd_event_unref h p).2.freed l = true ↔
      (h.freed l = true ∨ (p = some l ∧ h.n_ref l - 1 = 0)) := by
  cases p with
  | none => simp [sd_event_unref]
  | some a =>
    simp only [sd_event_unref, Option.some.injEq]
    by_cases hl : l = a
    · subst hl; simp
    · have : ¬ a = l := fun hc => hl hc.symm
      simp [hl, this]

theorem handlesOn_of_handles (h1 h2 : Heap) (l : Loop) (hh : h1.handles = h2.handles) :
    h1.handlesOn l = h2.handlesOn l := by
  unfold Heap.handlesOn
  rw [hh]

theorem obj_of_handles (h1 h2 : Heap) (i : Nat) (hh : h1.handles = h2.handles) :
    h1.obj i = h2.obj i := by
  unfold Heap.obj
  rw [hh]

theorem ctor_raw_counted (h h1 : Heap) (p : Option Loop) (hc : h.Counted)
    (hd : ∀ l, p = some l → h.freed l = false)
    (hs : event.ctor_raw p h = some h1) : h1.Counted := by
  unfold event.ctor_raw at hs
  simp only [Option.some.injEq] at hs
  subst hs
  intro l
  obtain ⟨hn, hf⟩ := hc l
  rw [handlesOn_of_handles _ _ l (ref_handles _ _), handlesOn_alloc, ref_n_ref, ref_freed]
  show h.n_ref l + _ = _ ∧ (h.freed l = true → _)
  by_cases hp : p = some l
  · have hfl := hd l hp
    rw [if_pos hp]
    refine ⟨by omega, fun hx => ?_⟩
    rw [hfl] at hx
    cases hx
  · rw [if_neg hp]
    exact ⟨by omega, fun hx => by have := hf hx; omega⟩

theorem ctor_copy_counted (h h1 : Heap) (o : Nat) (hc : h.Counted)
    (hs : event.ctor_copy o h = some h1) : h1.Counted := by
  unfold event.ctor_copy at hs
  cases ho : h.obj o with
  | none => rw [ho] at hs; cases hs
  | some e =>
    obtain ⟨q⟩ := e
    rw [ho] at hs
    apply ctor_raw_counted h h1 q hc _ hs
    intro l hq
    subst hq
    have hpos := handlesOn_pos h o l ho
    obtain ⟨_, hf⟩ := hc l
    cases hfl : h.freed l with
    | false => rfl
    | true => have := hf hfl; omega

theorem ctor_move_counted (h h1 : Heap) (o : Nat) (hc : h.Counted)
    (hs : event.ctor_move o h = some h1) : h1.Counted := by
  unfold event.ctor_move at hs
  cases ho : h.obj o with
  | none => rw [ho] at hs; cases hs
  | some e =>
    obtain ⟨q⟩ := e
    rw [ho] at hs
    have hs2 : (h.write o { _event := none }).alloc { _event := q } = h1 := by
      simpa using hs
    subst hs2
    intro l
    obtain ⟨hn, hf⟩ := hc l
    have hw := handlesOn_write h o q none l ho
    rw [handlesOn_alloc]
    show h.n_ref l = _ ∧ (h.freed l = true → _)
    have hz : (if (none : Option Loop) = some l then 1 else 0) = 0 := by simp
    rw [hz] at hw
    exact ⟨by omega, fun hx => by have := hf hx; omega⟩

theorem dtor_counted (h h1 : Heap) (t : Nat) (hc : h.Counted)
    (hs : event.dtor t h = some h1) : h1.Counted := by
  unfold event.dtor at hs
  cases ho : h.obj t with
  | none => rw [ho] at hs; cases hs
  | some e =>
    obtain ⟨p⟩ := e
    rw [ho] at hs
    have hs2 : (((sd_event_unref h p).2).write t { _event := (sd_event_unref h p).1 }).dealloc t
        = h1 := by
      simpa using hs
    subst hs2
    intro l
    obtain ⟨hn, hf⟩ := hc l
    have ho1 : (sd_event_unref h p).2.obj t = some { _event := p } := by
      rw [obj_of_handles _ h t (unref_handles h p)]; exact ho
    have hw := handlesOn_write _ t p (sd_event_unref h p).1 l ho1
    have ho2 := obj_write_self _ t _ { _event := (sd_event_unref h p).1 } ho1
    have hdl := handlesOn_dealloc _ t (sd_event_unref h p).1 l ho2
    have hret : (sd_event_unref h p).1 = none := by cases p <;> rfl
    rw [hret] at hw hdl
    have hz : (if (none : Option Loop) = some l then 1 else 0) = 0 := by simp
    rw [hz] at hw hdl
    rw [handlesOn_of_handles _ h l (unref_handles h p)] at hw
    have hnr := unref_n_ref h p l
    have hfr := unref_freed h p l
    have hpos : p = some l → 1 ≤ h.handlesOn l := fun hp => by
      subst hp; exact handlesOn_pos h t l ho
    rw [hret]
    show (sd_event_unref h p).2.n_ref l = _ ∧ ((sd_event_unref h p).2.freed l = true → _)
    rw [hnr, hfr]
    by_cases hp : p = some l
    · have := hpos hp
      rw [if_pos hp] at hw ⊢
      refine ⟨by omega, fun hx => ?_⟩
      rcases hx with hx | ⟨_, hx⟩
      · have := hf hx; omega
      · omega
    · rw [if_neg hp] at hw ⊢
      refine ⟨by omega, fun hx => ?_⟩
      rcases hx with hx | ⟨hx, _⟩
      · have := hf hx; omega
      · exact absurd hx hp

theorem assign_copy_counted (h h1 : Heap) (t o : Nat) (hto : t ≠ o) (hc : h.Counted)
    (hs : event.assign_copy t o h = some h1) : h1.Counted := by
  unfold event.assign_copy at hs
  cases ht : h.obj t with
  | none => rw [ht] at hs; cases hs
  | some e =>
    obtain ⟨p⟩ := e
    rw [ht] at hs
    have ht1 : (sd_event_unref h p).2.obj t = some { _event := p } := by
      rw [obj_of_handles _ h t (unref_handles h p)]; exact ht
    have ho1 : (sd_event_unref h p).2.obj o = h.obj o :=
      obj_of_handles _ h o (unref_handles h p)
    cases ho : h.obj o with
    | none =>
      rw [ho] at ho1
      simp [ho1] at hs
    | some e2 =>
      obtain ⟨q⟩ := e2
      rw [ho] at ho1
      have ht2 := obj_write_self _ t _ { _event := q } ht1
      have hs2 : sd_event_ref ((sd_event_unref h p).2.write t { _event := q }) q = h1 := by
        simpa [ho1, ht2] using hs
      subst hs2
      intro l
      obtain ⟨hn, hf⟩ := hc l
      have hw := handlesOn_write _ t p q l ht1
      rw [handlesOn_of_handles _ h l (unref_handles h p)] at hw
      have hnr := unref_n_ref h p l
      have hfr := unref_freed h p l
      have hpos : p = some l → 1 ≤ h.handlesOn l := fun hp => by
        subst hp; exact handlesOn_pos h t l ht
      have hqpos : q = some l → 1 ≤ h.handlesOn l := fun hq => by
        subst hq; exact handlesOn_pos h o l ho
      have htwo : p = some l → q = some l → 2 ≤ h.handlesOn l := fun hp hq => by
        subst hp; subst hq; exact handlesOn_two h t o l hto ht ho
      rw [handlesOn_of_handles _ _ l (ref_handles _ _), ref_n_ref, ref_freed]
      show (sd_event_unref h p).2.n_ref l + _ = _ ∧ ((sd_event_unref h p).2.freed l = true → _)
      rw [hnr, hfr]
      by_cases hp : p = some l <;> by_cases hq : q = some l
      · have := htwo hp hq
        rw [if_pos hp, if_pos hq] at hw ⊢
        refine ⟨by omega, fun hx => ?_⟩
        rcases hx with hx | ⟨_, hx⟩
        · have := hf hx; omega
        · omega
      · have := hpos hp
        rw [if_pos hp, if_neg hq] at hw ⊢
        refine ⟨by omega, fun hx => ?_⟩
        rcases hx with hx | ⟨_, hx⟩
        · have := hf hx; omega
        · omega
      · have := hqpos hq
        rw [if_neg hp, if_pos hq] at hw ⊢
        refine ⟨by omega, fun hx => ?_⟩
        rcases hx with hx | ⟨hx, _⟩
        · have := hf hx; omega
        · exact absurd hx hp
      · rw [if_neg hp, if_neg hq] at hw ⊢
        refine ⟨by omega, fun hx => ?_⟩
        rcases hx with hx | ⟨hx, _⟩
        · have := hf hx; omega
        · exact absurd hx hp

theorem assign_move_counted (h h1 : Heap) (t o : Nat) (hto : t ≠ o) (hc : h.Counted)
    (hs : event.assign_move t o h = some h1) : h1.Counted := by
  unfold event.assign_move at hs
  cases ht : h.obj t with
  | none => rw [ht] at hs; cases hs
  | some e =>
    obtain ⟨p⟩ := e
    rw [ht] at hs
    have ht1 : (sd_event_unref h p).2.obj t = some { _event := p } := by
      rw [obj_of_handles _ h t (unref_handles h p)]; exact ht
    have ho1 : (sd_event_unref h p).2.obj o = h.obj o :=
      obj_of_handles _ h o (unref_handles h p)
    cases ho : h.obj o with
    | none =>
      rw [ho] at ho1
      simp [ho1] at hs
    | some e2 =>
      obtain ⟨q⟩ := e2
      rw [ho] at ho1
      have hs2 : ((sd_event_unref h p).2.write o { _event := none }).write t { _event := q }
          = h1 := by
        simpa [ho1] using hs
      subst hs2
      intro l
      obtain ⟨hn, hf⟩ := hc l
      have hw1 := handlesOn_write _ o q none l ho1
      rw [handlesOn_of_handles _ h l (unref_handles h p)] at hw1
      have ht2 : ((sd_event_unref h p).2.write o { _event := none }).obj t
          = some { _event := p } := by
        rw [obj_write_ne _ o t _ (fun hc => hto hc.symm)]; exact ht1
      have hw2 := handlesOn_write _ t p q l ht2
      have hz : (if (none : Option Loop) = some l then 1 else 0) = 0 := by simp
      rw [hz] at hw1
      have hnr := unref_n_ref h p l
      have hfr := unref_freed h p l
      have hpos : p = some l → 1 ≤ h.handlesOn l := fun hp => by
        subst hp; exact handlesOn_pos h t l ht
      show (sd_event_unref h p).2.n_ref l = _ ∧ ((sd_event_unref h p).2.freed l = true → _)
      rw [hnr, hfr]
      by_cases hp : p = some l
      · have := hpos hp
        rw [if_pos hp] at hw2 ⊢
        refine ⟨by omega, fun hx => ?_⟩
        rcases hx with hx | ⟨_, hx⟩
        · have := hf hx; omega
        · omega
      · rw [if_neg hp] at hw2 ⊢
        refine ⟨by omega, fun hx => ?_⟩
        rcases hx with hx | ⟨hx, _⟩
        · have := hf hx; omega
        · exact absurd hx hp

/-- Before any handle exists the reference-count invariant holds. -/
theorem init_counted : Heap.init.Counted := by
  intro l
  exact ⟨rfl, fun _ => rfl⟩

/-- Every handle operation other than assigning a handle to itself keeps the
reference-count invariant, provided a raw pointer handed to the constructor
does not point to a loop already torn down. -/
theorem step_counted (op : HandleOp) (h h1 : Heap) (hc : h.Counted)
    (hself : op.selfAssign = false) (hdang : op.dangling h = false)
    (hs : op.step h = some h1) : h1.Counted := by
  cases op with
  | ctor_raw p =>
    refine ctor_raw_counted h h1 p hc ?_ hs
    intro l hp
    subst hp
    exact hdang
  | ctor_copy o => exact ctor_copy_counted h h1 o hc hs
  | ctor_move o => exact ctor_move_counted h h1 o hc hs
  | assign_copy t o =>
    have hto : t ≠ o := by simpa [HandleOp.selfAssign] using hself
    exact assign_copy_counted h h1 t o hto hc hs
  | assign_move t o =>
    have hto : t ≠ o := by simpa [HandleOp.selfAssign] using hself
    exact assign_move_counted h h1 t o hto hc hs
  | dtor t => exact dtor_counted h h1 t hc hs

/-- For every sequence of handle operations that never assigns a handle to
itself, the count of each loop equals the number of live handles on it after
the sequence, and no loop with a live handle has been torn down. -/
theorem runOps_counted (ops : List HandleOp) (h h1 : Heap) (hc : h.Counted)
    (hw : WellUsed ops h) (hs : runOps ops h = some h1) : h1.Counted := by
  induction ops generalizing h with
  | nil =>
    have : h = h1 := by simpa [runOps] using hs
    rw [← this]; exact hc
  | cons op ops ih =>
    obtain ⟨hself, hdang, hrest⟩ := hw
    cases hstep : op.step h with
    | none => simp [runOps, hstep] at hs
    | some h2 =>
      have hs2 : runOps ops h2 = some h1 := by simpa [runOps, hstep] using hs
      exact ih h2 (step_counted op h h2 hc hself hdang hstep) (hrest h2 hstep) hs2

/-- The first handle on a loop, built from the raw pointer, leaves the
reference-count invariant in place. -/
theorem step_counted_witness :
    ∃ h, HandleOp.step (HandleOp.ctor_raw (some 0)) Heap.init = some h ∧ h.Counted :=
  ⟨_, rfl, step_counted (HandleOp.ctor_raw (some 0)) Heap.init _ init_counted rfl rfl rfl⟩

/-- C1: a handle assigned to itself.  With one handle on the loop, after
`h = std::move(h)` the handle still references the loop while the count is
zero and the loop is torn down; after `h = h` the loop has been torn down
(its count passed through zero) while the handle still references it.  With
two handles on the loop, `a = std::move(a)` leaves the count at one for two
live handles, and destroying the other handle then tears the loop down under
the first.  In each case the reference-count invariant is lost. -/
theorem self_assign_breaks_count :
    (∃ h, runOps [HandleOp.ctor_raw (some 0)] Heap.init = some h ∧
      h.n_ref 0 = 1 ∧ h.handlesOn 0 = 1 ∧ h.freed 0 = false) ∧
    (∃ h, runOps [HandleOp.ctor_raw (some 0), HandleOp.assign_move 0 0] Heap.init = some h ∧
      h.n_ref 0 = 0 ∧ h.handlesOn 0 = 1 ∧ h.freed 0 = true ∧ ¬ h.Counted) ∧
    (∃ h, runOps [HandleOp.ctor_raw (some 0), HandleOp.assign_copy 0 0] Heap.init = some h ∧
      h.n_ref 0 = 1 ∧ h.handlesOn 0 = 1 ∧ h.freed 0 = true ∧ ¬ h.Counted) ∧
    (∃ h, runOps [HandleOp.ctor_raw (some 0), HandleOp.ctor_copy 0, HandleOp.assign_move 0 0]
        Heap.init = some h ∧
      h.n_ref 0 = 1 ∧ h.handlesOn 0 = 2 ∧ h.freed 0 = false ∧ ¬ h.Counted) ∧
    (∃ h, runOps [HandleOp.ctor_raw (some 0), HandleOp.ctor_copy 0, HandleOp.assign_move 0 0,
        HandleOp.dtor 1] Heap.init = some h ∧
      h.n_ref 0 = 0 ∧ h.handlesOn 0 = 1 ∧ h.freed 0 = true ∧ ¬ h.Counted) := by
  refine ⟨⟨_, rfl, by decide, by decide, by decide⟩,
    ⟨_, rfl, by decide, by decide, by decide, fun hc => ?_⟩,
    ⟨_, rfl, by decide, by decide, by decide, fun hc => ?_⟩,
    ⟨_, rfl, by decide, by decide, by decide, fun hc => ?_⟩,
    ⟨_, rfl, by decide, by decide, by decide, fun hc => ?_⟩⟩
  · have h0 := (hc 0).1
    revert h0
    decide
  · have h0 := (hc 0).2 (by decide)
    revert h0
    decide
  · have h0 := (hc 0).1
    revert h0
    decide
  · have h0 := (hc 0).1
    revert h0
    decide

end sd
